import Mathlib

/-!
Shallow embedding of `src/src/decomposition/simplex_regression_FW.cc`
(namespace ACTIONet), the Frank-Wolfe simplex-regression solver, over exact
rational arithmetic (`ℚ` stands in for C `double`; all claims under study are
about algebraic structure, index selection and control flow, not about
floating-point rounding).

Dimensions are written in successor form (`m+1`, `k+1`, `n+1`) to express the
preconditions `A.rows ≥ 1`, `A.cols ≥ 1`, `B.cols ≥ 1`; matrices are total
functions on `Fin`, so the shape postcondition `X : (k+1) × (n+1)` is carried
by the types.

The initializer (lines 21-29 and 322-329 of the source) picks, for every
target column `j`, the row index of the maximal Pearson correlation
`cor(A, B)` between the dictionary columns and target column `j`, and places a
single `1` there.  Pearson correlation divides by standard deviations (a real
square root), which has no exact rational counterpart, so the chosen row
indices are passed to the embedded solver as an explicit argument `initIdx`;
every theorem below quantifies over `initIdx` (or instantiates it with the row
of highest correlation, computed by hand for the concrete matrices used, where
the correlations are exactly ±1 because the columns are affinely related).
Nothing after the initialization uses `cor` again, so this is the only
abstracted quantity; everything else is translated operation by operation.
-/

namespace ACTIONet

/-- Column vectors of length `r` over `ℚ`. -/
abbrev Vc (r : ℕ) : Type := Fin r → ℚ

/-- Dense `r × c` matrices over `ℚ` (`arma::mat`). -/
abbrev Mt (r c : ℕ) : Type := Fin r → Fin c → ℚ

/-- C++ `double`-to-`int` conversion truncates toward zero.  This conversion
happens implicitly in the source at lines 51 and 56 (`i1_val = g(i);`,
`i2_val = g(i);`) because `i1_val` and `i2_val` are declared `int` at line 46. -/
def ratTrunc (q : ℚ) : ℤ := if 0 ≤ q then ⌊q⌋ else ⌈q⌉

/-- Dot product of two vectors (`arma::dot`). -/
def dotp {r : ℕ} (u v : Vc r) : ℚ := ∑ i, u i * v i

/-- Lines 45-60 (and identically lines 355-370): the index-selection loop.
State is `((i1, i1_val), (i2, i2_val))` with `i1_val = i2_val = 1000` and
`i1 = i2 = 0` initially.  For each row `i` in order: if `g(i) < i1_val` then
`i1` becomes `i` (and `i1_val` stores `g(i)` truncated to `int`); if
`x(i) > 0` and `g(i) < i2_val` then `i2` becomes `i` likewise.  The running
minima are `int`-typed, so every comparison is against the truncation of the
previously stored gradient entry. -/
def selectIdx {k : ℕ} (g x : Vc (k+1)) : Fin (k+1) × Fin (k+1) :=
  let step : ((Fin (k+1) × ℤ) × (Fin (k+1) × ℤ)) → Fin (k+1) →
      ((Fin (k+1) × ℤ) × (Fin (k+1) × ℤ)) := fun s i =>
    (if g i < (s.1.2 : ℚ) then (i, ratTrunc (g i)) else s.1,
     if 0 < x i ∧ g i < (s.2.2 : ℚ) then (i, ratTrunc (g i)) else s.2)
  let r := (List.finRange (k+1)).foldl step ((0, 1000), (0, 1000))
  (r.1.1, r.2.1)

/-- Lines 42-91: the per-column body of one outer iteration of
`run_simplex_regression_FW_base`.  Given the shared `AtA = AᵀA` and the
column `Atb` of `AᵀB`, the gradient column is `g = AtA·x − Atb` (this is
column `k` of `grad = AtA*X - AtB`, which only depends on column `k` of the
snapshot `X`, so the in-place column loop of the source is column-wise
independent).  Directions are `d_FW = e_{i1} − x` (lines 62-63) and
`d_A = x − e_{i2}` (lines 65-66), the branch at line 70 picks `d_FW` when
`dot(g, d_FW) < dot(g, d_A)` and `d_A` otherwise.  The source also computes
`alpha_max` (lines 68, 72, 75: `1` on the forward branch and
`x(i1)/(1 - x(i1))` — note the index `i1` — on the away branch) but never
reads it again: the applied step is `alpha = 2.0/(it+2)` (line 89), and the
column is overwritten with `x + alpha*d` (line 91). -/
def colStep {k : ℕ} (AtA : Mt (k+1) (k+1)) (Atb : Vc (k+1)) (it : ℕ)
    (x : Vc (k+1)) : Vc (k+1) :=
  let g : Vc (k+1) := fun i => (∑ l, AtA i l * x l) - Atb i
  let p := selectIdx g x
  let dFW : Vc (k+1) := fun i => (if i = p.1 then 1 else 0) - x i
  let dA : Vc (k+1) := fun i => x i - (if i = p.2 then 1 else 0)
  let d : Vc (k+1) := fun i => if dotp g dFW < dotp g dA then dFW i else dA i
  let alpha : ℚ := 2 / (it + 2)
  fun i => x i + alpha * d i

/-- Lines 38-92: one full outer iteration of the base solver updates every
column of `X` from the gradient snapshot taken at the top of the iteration. -/
def baseIter {k n : ℕ} (AtA : Mt (k+1) (k+1)) (AtB : Mt (k+1) (n+1)) (it : ℕ)
    (X : Mt (k+1) (n+1)) : Mt (k+1) (n+1) :=
  fun i j => colStep AtA (fun l => AtB l j) it (fun l => X l j) i

/-- Line 95: `res = sum(sum(abs(old_X - X))) / X.n_cols` — the total absolute
entrywise difference divided by the number of columns (not by the number of
entries). -/
def resBase {k n : ℕ} (oldX X : Mt (k+1) (n+1)) : ℚ :=
  (∑ i, ∑ j, |oldX i j - X i j|) / (n + 1 : ℚ)

/-- Lines 37-102: the outer iteration loop of the base solver, with the early
termination of lines 98-100 (`if (res < min_diff) break;`).  The result pairs
the final `X` with the number of outer iterations that executed (the source
prints the index of every executed iteration at line 94, so the iteration
count is observable behavior). -/
def baseLoop {k n : ℕ} (AtA : Mt (k+1) (k+1)) (AtB : Mt (k+1) (n+1))
    (minDiff : ℚ) : ℕ → ℕ → Mt (k+1) (n+1) → Mt (k+1) (n+1) × ℕ
  | 0, _, X => (X, 0)
  | fuel+1, it, X =>
    let Xn := baseIter AtA AtB it X
    if resBase X Xn < minDiff then (Xn, 1)
    else
      let r := baseLoop AtA AtB minDiff fuel (it+1) Xn
      (r.1, r.2 + 1)

/-- `arma::clamp(X, 0, 1)` applied entrywise (lines 104 and 441). -/
def clamp01 (q : ℚ) : ℚ := min 1 (max 0 q)

/-- Lines 104-105 (and 441-442): `X = clamp(X, 0, 1); X = normalise(X, 1);`.
`arma::normalise(X, 1)` divides every column by its 1-norm, and divides by `1`
instead when the 1-norm is zero (armadillo's `op_normalise` replaces a zero
norm by one), so a zero column is returned unchanged rather than producing a
division by zero. -/
def postProject {k n : ℕ} (X : Mt (k+1) (n+1)) : Mt (k+1) (n+1) :=
  fun i j =>
    clamp01 (X i j) /
      (if (∑ l, |clamp01 (X l j)|) = 0 then 1 else ∑ l, |clamp01 (X l j)|)

/-- `AᵀA` (line 33). -/
def AtAOf {m k : ℕ} (A : Mt (m+1) (k+1)) : Mt (k+1) (k+1) :=
  fun i j => ∑ l, A l i * A l j

/-- `AᵀB` (line 34). -/
def AtBOf {m k n : ℕ} (A : Mt (m+1) (k+1)) (B : Mt (m+1) (n+1)) :
    Mt (k+1) (n+1) :=
  fun i j => ∑ l, A l i * B l j

/-- Lines 23-29: the one-hot initial `X`: `X(i, j) = 1` exactly when
`i = initIdx j`, where `initIdx j` is the row of the maximal correlation
score for target column `j` (see the header comment for why the chosen rows
are a parameter here). -/
def initX {k n : ℕ} (initIdx : Fin (n+1) → Fin (k+1)) : Mt (k+1) (n+1) :=
  fun i j => if i = initIdx j then 1 else 0

/-- Lines 16-17 (and 317-318): `if (max_iter == -1) max_iter = A.n_cols;`.
Only the exact value `-1` is replaced by `k` (the number of columns of `A`);
afterwards the loop `for (it = 0; it < max_iter; it++)` executes
`max(max_iter, 0)` iterations, so any other non-positive `max_iter` yields
zero iterations. -/
def effIter (k : ℕ) (max_iter : ℤ) : ℕ :=
  (if max_iter = -1 then (k + 1 : ℤ) else max_iter).toNat

/-- Lines 15-108: `run_simplex_regression_FW_base`.  Returns the
post-projected `X` together with the number of outer iterations executed. -/
def run_simplex_regression_FW_base {m k n : ℕ} (A : Mt (m+1) (k+1))
    (B : Mt (m+1) (n+1)) (initIdx : Fin (n+1) → Fin (k+1)) (max_iter : ℤ)
    (min_diff : ℚ) : Mt (k+1) (n+1) × ℕ :=
  let r := baseLoop (AtAOf A) (AtBOf A B) min_diff (effIter k max_iter) 0
    (initX initIdx)
  (postProject r.1, r.2)

/-- Lines 339-436: the outer loop of `run_simplex_regression_FW`.  Its body
computes the gradient, the index pair, both directions, the step size and the
vector `q` (lines 342-420), but the write-back `X.col(k) = x + alpha*d` is
commented out at line 418 and the early-termination check is commented out at
lines 430-434, so the loop never modifies `X` and never breaks: its only
observable effect is the number of iterations executed. -/
def fwLoop {k n : ℕ} : ℕ → Mt (k+1) (n+1) → Mt (k+1) (n+1) × ℕ
  | 0, X => (X, 0)
  | fuel+1, X =>
    let r := fwLoop fuel X
    (r.1, r.2 + 1)

/-- Lines 311-445: `run_simplex_regression_FW`.  Initialization (lines
322-329) and the `max_iter == -1` replacement (317-318) are as in the base
variant; the loop leaves `X` untouched (see `fwLoop`), and lines 441-442
post-project the initializer's output. -/
def run_simplex_regression_FW {m k n : ℕ} (A : Mt (m+1) (k+1))
    (B : Mt (m+1) (n+1)) (initIdx : Fin (n+1) → Fin (k+1)) (max_iter : ℤ)
    (min_diff : ℚ) : Mt (k+1) (n+1) × ℕ :=
  let r := fwLoop (effIter k max_iter) (initX initIdx)
  (postProject r.1, r.2)

/-- Error conditions surfaced to the caller. -/
inductive SolverError : Type
  | DimensionMismatch : SolverError

/-- The solver's first operation is `cor(A, B)` (line 21); armadillo's `cor`
aborts with a dimension-mismatch logic error when `A.n_rows ≠ B.n_rows`,
before the iteration loop is ever reached.  This wrapper models that check:
on mismatched row counts the caller receives the error and no matrix. -/
def run_simplex_regression_FW_base_checked {ma mb k n : ℕ}
    (A : Mt (ma+1) (k+1)) (B : Mt (mb+1) (n+1))
    (initIdx : Fin (n+1) → Fin (k+1)) (max_iter : ℤ) (min_diff : ℚ) :
    Except SolverError (Mt (k+1) (n+1) × ℕ) :=
  if h : ma + 1 = mb + 1 then
    Except.ok (run_simplex_regression_FW_base
      (fun i j => A (Fin.cast h.symm i) j) B initIdx max_iter min_diff)
  else Except.error SolverError.DimensionMismatch

/-!
Helper lemmas shared by the claim theorems below.
-/

/-- The entrywise clamp is non-negative. -/
theorem clamp01_nonneg (q : ℚ) : 0 ≤ clamp01 q := by
  simp [clamp01]

/-- The entrywise clamp is at most one. -/
theorem clamp01_le_one (q : ℚ) : clamp01 q ≤ 1 := by
  simp [clamp01]

/-- Clamping a positive value stays positive. -/
theorem clamp01_pos {q : ℚ} (h : 0 < q) : 0 < clamp01 q := by
  simp [clamp01, h]

/-- A column that sums to one has a positive entry, so its clamped 1-norm is
positive: the division in `postProject` is by a nonzero number. -/
theorem col_norm_pos {k n : ℕ} (X : Mt (k+1) (n+1)) (j : Fin (n+1))
    (hs : ∑ i, X i j = 1) : 0 < ∑ l, |clamp01 (X l j)| := by
  have hex : ∃ i0, 0 < X i0 j := by
    by_contra h
    push_neg at h
    have : ∑ i, X i j ≤ 0 := Finset.sum_nonpos (fun i _ => h i)
    rw [hs] at this
    norm_num at this
  obtain ⟨i0, hi0⟩ := hex
  have h1 : 0 < |clamp01 (X i0 j)| := by
    rw [abs_of_nonneg (clamp01_nonneg _)]
    exact clamp01_pos hi0
  have h2 : |clamp01 (X i0 j)| ≤ ∑ l, |clamp01 (X l j)| :=
    Finset.single_le_sum (f := fun l => |clamp01 (X l j)|)
      (fun l _ => abs_nonneg _) (Finset.mem_univ i0)
  linarith

/-- Post-projected entries of a sum-one column lie in `[0, 1]`. -/
theorem postProject_entry_mem {k n : ℕ} (X : Mt (k+1) (n+1)) (i : Fin (k+1))
    (j : Fin (n+1)) (hs : ∑ i, X i j = 1) :
    0 ≤ postProject X i j ∧ postProject X i j ≤ 1 := by
  have hpos := col_norm_pos X j hs
  have hne : ¬ ((∑ l, |clamp01 (X l j)|) = 0) := ne_of_gt hpos
  constructor
  · simp only [postProject, if_neg hne]
    exact div_nonneg (clamp01_nonneg _) (le_of_lt hpos)
  · simp only [postProject, if_neg hne]
    rw [div_le_one hpos]
    calc clamp01 (X i j) ≤ |clamp01 (X i j)| := le_abs_self _
      _ ≤ ∑ l, |clamp01 (X l j)| :=
        Finset.single_le_sum (f := fun l => |clamp01 (X l j)|)
          (fun l _ => abs_nonneg _) (Finset.mem_univ i)

/-- Post-projected columns of a sum-one column sum to exactly one. -/
theorem postProject_colsum {k n : ℕ} (X : Mt (k+1) (n+1)) (j : Fin (n+1))
    (hs : ∑ i, X i j = 1) : ∑ i, postProject X i j = 1 := by
  have hpos := col_norm_pos X j hs
  have hne : ¬ ((∑ l, |clamp01 (X l j)|) = 0) := ne_of_gt hpos
  simp only [postProject, if_neg hne]
  rw [← Finset.sum_div]
  have he : ∑ i, clamp01 (X i j) = ∑ l, |clamp01 (X l j)| :=
    Finset.sum_congr rfl (fun l _ => (abs_of_nonneg (clamp01_nonneg _)).symm)
  rw [he, div_self (ne_of_gt hpos)]

/-- Every column of the one-hot initializer sums to one. -/
theorem initX_colsum {k n : ℕ} (initIdx : Fin (n+1) → Fin (k+1))
    (j : Fin (n+1)) : ∑ i, initX initIdx i j = 1 := by
  simp [initX, Finset.sum_ite_eq']

/-- Both candidate directions have zero entry sum on a sum-one column, so the
update `x + alpha*d` preserves the column sum exactly, whatever direction and
whatever step size the iteration picked. -/
theorem colStep_sum {k : ℕ} (AtA : Mt (k+1) (k+1)) (Atb : Vc (k+1)) (it : ℕ)
    (x : Vc (k+1)) (hx : ∑ i, x i = 1) : ∑ i, colStep AtA Atb it x i = 1 := by
  have key : ∀ (i1 i2 : Fin (k+1)) (c : Prop) (hc : Decidable c) (α : ℚ),
      ∑ i, (x i + α * (if c then (if i = i1 then (1:ℚ) else 0) - x i
        else x i - (if i = i2 then 1 else 0))) = 1 := by
    intro i1 i2 c hc α
    by_cases h : c
    · simp only [if_pos h]
      rw [Finset.sum_add_distrib, hx, ← Finset.mul_sum]
      rw [Finset.sum_sub_distrib, hx]
      simp [Finset.sum_ite_eq']
    · simp only [if_neg h]
      rw [Finset.sum_add_distrib, hx, ← Finset.mul_sum]
      rw [Finset.sum_sub_distrib, hx]
      simp [Finset.sum_ite_eq']
  simp only [colStep]
  exact key _ _ _ _ _

/-- One outer iteration of the base solver preserves unit column sums. -/
theorem baseIter_colsum {k n : ℕ} (AtA : Mt (k+1) (k+1)) (AtB : Mt (k+1) (n+1))
    (it : ℕ) (X : Mt (k+1) (n+1)) (j : Fin (n+1)) (hx : ∑ i, X i j = 1) :
    ∑ i, baseIter AtA AtB it X i j = 1 :=
  colStep_sum AtA (fun l => AtB l j) it (fun l => X l j) hx

/-- The whole iteration loop of the base solver preserves unit column sums,
for any fuel, any starting iteration index and any tolerance. -/
theorem baseLoop_colsum {k n : ℕ} (AtA : Mt (k+1) (k+1)) (AtB : Mt (k+1) (n+1))
    (minDiff : ℚ) (fuel it : ℕ) (X : Mt (k+1) (n+1))
    (hX : ∀ j, ∑ i, X i j = 1) :
    ∀ j, ∑ i, (baseLoop AtA AtB minDiff fuel it X).1 i j = 1 := by
  induction fuel generalizing it X with
  | zero => simpa [baseLoop] using hX
  | succ fuel ih =>
    intro j
    have hXn : ∀ j, ∑ i, baseIter AtA AtB it X i j = 1 :=
      fun j => baseIter_colsum AtA AtB it X j (hX j)
    simp only [baseLoop]
    split
    · exact hXn j
    · exact ih (it+1) (baseIter AtA AtB it X) hXn j

/-- The loop of `run_simplex_regression_FW` returns its input matrix
unchanged (the write-back is commented out in the source). -/
theorem fwLoop_fst {k n : ℕ} (fuel : ℕ) (X : Mt (k+1) (n+1)) :
    (fwLoop fuel X).1 = X := by
  induction fuel with
  | zero => rfl
  | succ fuel ih => simpa [fwLoop] using ih

/-- The loop of `run_simplex_regression_FW` always burns all its fuel (the
early-termination check is commented out in the source). -/
theorem fwLoop_snd {k n : ℕ} (fuel : ℕ) (X : Mt (k+1) (n+1)) :
    (fwLoop fuel X).2 = fuel := by
  induction fuel with
  | zero => rfl
  | succ fuel ih => simpa [fwLoop] using ih

/-- The iteration-difference measure is a sum of absolute values divided by a
positive count, hence non-negative. -/
theorem resBase_nonneg {k n : ℕ} (oldX X : Mt (k+1) (n+1)) :
    0 ≤ resBase oldX X := by
  apply div_nonneg
  · exact Finset.sum_nonneg fun i _ => Finset.sum_nonneg fun j _ => abs_nonneg _
  · positivity

/-- Unfolding one non-breaking iteration of the loop. -/
theorem baseLoop_step_no_break {k n : ℕ} (AtA : Mt (k+1) (k+1))
    (AtB : Mt (k+1) (n+1)) (minDiff : ℚ) (fuel it : ℕ) (X : Mt (k+1) (n+1))
    (h : ¬ resBase X (baseIter AtA AtB it X) < minDiff) :
    baseLoop AtA AtB minDiff (fuel+1) it X =
      ((baseLoop AtA AtB minDiff fuel (it+1) (baseIter AtA AtB it X)).1,
       (baseLoop AtA AtB minDiff fuel (it+1) (baseIter AtA AtB it X)).2 + 1) := by
  simp only [baseLoop, if_neg h]

/-- Unfolding one breaking iteration of the loop. -/
theorem baseLoop_step_break {k n : ℕ} (AtA : Mt (k+1) (k+1))
    (AtB : Mt (k+1) (n+1)) (minDiff : ℚ) (fuel it : ℕ) (X : Mt (k+1) (n+1))
    (h : resBase X (baseIter AtA AtB it X) < minDiff) :
    baseLoop AtA AtB minDiff (fuel+1) it X = (baseIter AtA AtB it X, 1) := by
  simp only [baseLoop, if_pos h]

/-- With `min_diff = 0` the break never fires (the measure is non-negative). -/
theorem baseLoop_zero_step {k n : ℕ} (AtA : Mt (k+1) (k+1))
    (AtB : Mt (k+1) (n+1)) (fuel it : ℕ) (X : Mt (k+1) (n+1)) :
    baseLoop AtA AtB 0 (fuel+1) it X =
      ((baseLoop AtA AtB 0 fuel (it+1) (baseIter AtA AtB it X)).1,
       (baseLoop AtA AtB 0 fuel (it+1) (baseIter AtA AtB it X)).2 + 1) :=
  baseLoop_step_no_break AtA AtB 0 fuel it X
    (not_lt.mpr (resBase_nonneg X (baseIter AtA AtB it X)))

/-- Clamping fixes `1`. -/
theorem clamp01_one : clamp01 1 = 1 := by norm_num [clamp01]

/-- Clamping fixes `0`. -/
theorem clamp01_zero : clamp01 0 = 0 := by norm_num [clamp01]

/-- Post-projection fixes every one-hot matrix: clamping fixes `0` and `1`
and every column 1-norm is `1`. -/
theorem postProject_initX {k n : ℕ} (initIdx : Fin (n+1) → Fin (k+1)) :
    postProject (initX initIdx) = initX initIdx := by
  funext i j
  have habs : (∑ l, |clamp01 (initX initIdx l j)|) = 1 := by
    have hterm : ∀ l : Fin (k+1),
        |clamp01 (initX initIdx l j)| = if l = initIdx j then 1 else 0 := by
      intro l
      by_cases hl : l = initIdx j <;> simp [initX, hl, clamp01]
    rw [Finset.sum_congr rfl (fun l _ => hterm l)]
    simp [Finset.sum_ite_eq']
  rw [show postProject (initX initIdx) i j = clamp01 (initX initIdx i j) /
      (if (∑ l, |clamp01 (initX initIdx l j)|) = 0 then 1
       else ∑ l, |clamp01 (initX initIdx l j)|) from rfl, habs]
  norm_num
  by_cases hij : i = initIdx j <;> simp [initX, hij, clamp01]

/-!
Concrete data used by the counterexamples and witnesses.

First data set: `A = I₂`, `B = [[0], [9/10]]`.  The correlations are exactly
`cor(A.col(0), B.col(0)) = -1` and `cor(A.col(1), B.col(0)) = +1` (the target
is an exact affine function of either dictionary column), so the source's
initializer puts the unit mass at row 1: `initIdx = fun j => 1`.  With
`min_diff = 0` the run never breaks, and with exact arithmetic the iterates
of the single column are

  (0,1) → (1,0) → (1/3, 2/3) → (1/6, 5/6) → (1/10, 9/10) → (-1/5, 6/5),

the final away step (iteration 4, `alpha = 1/3`) draining entry 0 of the
column below zero because the feasibility bound is never applied.
-/

def exA : Mt 2 2 := fun i j => if i = j then 1 else 0

def exB : Mt 2 1 := fun i _ => if i = 0 then 0 else 9/10

def exInit : Fin 1 → Fin 2 := fun _ => 1

def exT1 : Mt 2 1 := fun i _ => if i = 0 then 1 else 0

def exT2 : Mt 2 1 := fun i _ => if i = 0 then 1/3 else 2/3

def exT3 : Mt 2 1 := fun i _ => if i = 0 then 1/6 else 5/6

def exT4 : Mt 2 1 := fun i _ => if i = 0 then 1/10 else 9/10

def exT5 : Mt 2 1 := fun i _ => if i = 0 then -(1/5) else 6/5

/-- Iteration 0 moves the column from `(0,1)` to `(1,0)` (forward step,
`alpha = 1`). -/
theorem exStep0 :
    baseIter (AtAOf exA) (AtBOf exA exB) 0 (initX exInit) = exT1 := by
  funext i j
  fin_cases j
  fin_cases i <;>
    norm_num [baseIter, colStep, selectIdx, dotp, ratTrunc, AtAOf, AtBOf,
      exA, exB, exInit, initX, exT1, Fin.sum_univ_succ, Fin.sum_univ_zero,
      Fin.succ_zero_eq_one,
      show List.finRange 2 = [0, 1] from by decide, List.foldl]

/-- Iteration 1 moves the column from `(1,0)` to `(1/3, 2/3)` (forward step,
`alpha = 2/3`). -/
theorem exStep1 : baseIter (AtAOf exA) (AtBOf exA exB) 1 exT1 = exT2 := by
  funext i j
  fin_cases j
  fin_cases i <;>
    norm_num [baseIter, colStep, selectIdx, dotp, ratTrunc, AtAOf, AtBOf,
      exA, exB, exT1, exT2, Fin.sum_univ_succ, Fin.sum_univ_zero,
      Fin.succ_zero_eq_one,
      show List.finRange 2 = [0, 1] from by decide, List.foldl]

/-- Iteration 2 moves the column from `(1/3, 2/3)` to `(1/6, 5/6)` (forward
step, `alpha = 1/2`). -/
theorem exStep2 : baseIter (AtAOf exA) (AtBOf exA exB) 2 exT2 = exT3 := by
  funext i j
  fin_cases j
  fin_cases i <;>
    norm_num [baseIter, colStep, selectIdx, dotp, ratTrunc, AtAOf, AtBOf,
      exA, exB, exT2, exT3, Fin.sum_univ_succ, Fin.sum_univ_zero,
      Fin.succ_zero_eq_one,
      show List.finRange 2 = [0, 1] from by decide, List.foldl]

/-- Iteration 3 moves the column from `(1/6, 5/6)` to `(1/10, 9/10)` (forward
step, `alpha = 2/5`). -/
theorem exStep3 : baseIter (AtAOf exA) (AtBOf exA exB) 3 exT3 = exT4 := by
  funext i j
  fin_cases j
  fin_cases i <;>
    norm_num [baseIter, colStep, selectIdx, dotp, ratTrunc, AtAOf, AtBOf,
      exA, exB, exT3, exT4, Fin.sum_univ_succ, Fin.sum_univ_zero,
      Fin.succ_zero_eq_one,
      show List.finRange 2 = [0, 1] from by decide, List.foldl]

/-- Iteration 4 selects the away direction (`i1 = i2 = 0`, both dot products
tie at `±9/100`) and applies `alpha = 2/(4+2) = 1/3` with no feasibility cap,
moving the column from `(1/10, 9/10)` to `(-1/5, 6/5)`. -/
theorem exStep4 : baseIter (AtAOf exA) (AtBOf exA exB) 4 exT4 = exT5 := by
  funext i j
  fin_cases j
  fin_cases i <;>
    norm_num [baseIter, colStep, selectIdx, dotp, ratTrunc, AtAOf, AtBOf,
      exA, exB, exT4, exT5, Fin.sum_univ_succ, Fin.sum_univ_zero,
      Fin.succ_zero_eq_one,
      show List.finRange 2 = [0, 1] from by decide, List.foldl]

/-- Five iterations of the loop on the first data set reach `(-1/5, 6/5)`. -/
theorem exRun5 :
    baseLoop (AtAOf exA) (AtBOf exA exB) 0 5 0 (initX exInit) = (exT5, 5) := by
  have e4 : baseLoop (AtAOf exA) (AtBOf exA exB) 0 (0+1) 4 exT4 = (exT5, 1) := by
    rw [baseLoop_zero_step, exStep4]
    rfl
  have e3 : baseLoop (AtAOf exA) (AtBOf exA exB) 0 (1+1) 3 exT3 = (exT5, 2) := by
    rw [baseLoop_zero_step, exStep3, e4]
  have e2 : baseLoop (AtAOf exA) (AtBOf exA exB) 0 (2+1) 2 exT2 = (exT5, 3) := by
    rw [baseLoop_zero_step, exStep2, e3]
  have e1 : baseLoop (AtAOf exA) (AtBOf exA exB) 0 (3+1) 1 exT1 = (exT5, 4) := by
    rw [baseLoop_zero_step, exStep1, e2]
  show baseLoop (AtAOf exA) (AtBOf exA exB) 0 (4+1) 0 (initX exInit) = (exT5, 5)
  rw [baseLoop_zero_step, exStep0, e1]

/-- Two iterations of the loop on the first data set reach `(1/3, 2/3)`. -/
theorem exRun2 :
    baseLoop (AtAOf exA) (AtBOf exA exB) 0 2 0 (initX exInit) = (exT2, 2) := by
  have e1 : baseLoop (AtAOf exA) (AtBOf exA exB) 0 (0+1) 1 exT1 = (exT2, 1) := by
    rw [baseLoop_zero_step, exStep1]
    rfl
  show baseLoop (AtAOf exA) (AtBOf exA exB) 0 (1+1) 0 (initX exInit) = (exT2, 2)
  rw [baseLoop_zero_step, exStep0, e1]

/-!
Second data set: `A = I₂`, `B = [[1/2], [49/100]]`.  Here
`cor(A.col(0), B.col(0)) = +1` and `cor(A.col(1), B.col(0)) = -1`, so the
initializer puts the unit mass at row 0: `initIdx = fun j => 0`.  The column
iterates are `(1,0) → (0,1) → (2/3, 1/3)`; the code's change measure (total
absolute difference over the single column) is `2` after the first iteration
and `4/3` after the second, while the mean absolute difference over the two
entries is `1` and `2/3`.
-/

def exB2 : Mt 2 1 := fun i _ => if i = 0 then 1/2 else 49/100

def exInit2 : Fin 1 → Fin 2 := fun _ => 0

def exU1 : Mt 2 1 := fun i _ => if i = 0 then 0 else 1

def exU2 : Mt 2 1 := fun i _ => if i = 0 then 2/3 else 1/3

/-- Iteration 0 on the second data set: `(1,0)` to `(0,1)` (forward,
`alpha = 1`). -/
theorem ex2Step0 :
    baseIter (AtAOf exA) (AtBOf exA exB2) 0 (initX exInit2) = exU1 := by
  funext i j
  fin_cases j
  fin_cases i <;>
    norm_num [baseIter, colStep, selectIdx, dotp, ratTrunc, AtAOf, AtBOf,
      exA, exB2, exInit2, initX, exU1, Fin.sum_univ_succ, Fin.sum_univ_zero,
      Fin.succ_zero_eq_one,
      show List.finRange 2 = [0, 1] from by decide, List.foldl]

/-- Iteration 1 on the second data set: `(0,1)` to `(2/3, 1/3)` (forward,
`alpha = 2/3`). -/
theorem ex2Step1 : baseIter (AtAOf exA) (AtBOf exA exB2) 1 exU1 = exU2 := by
  funext i j
  fin_cases j
  fin_cases i <;>
    norm_num [baseIter, colStep, selectIdx, dotp, ratTrunc, AtAOf, AtBOf,
      exA, exB2, exU1, exU2, Fin.sum_univ_succ, Fin.sum_univ_zero,
      Fin.succ_zero_eq_one,
      show ((⌈(-(1/2) : ℚ)⌉ : ℤ) : ℚ) = 0 from by norm_num,
      show (⌈(-(1/2) : ℚ)⌉ : ℤ) = 0 from by norm_num,
      show List.finRange 2 = [0, 1] from by decide, List.foldl]

/-- The code's measure after iteration 0 on the second data set is `2`. -/
theorem ex2Res0 : resBase (initX exInit2) exU1 = 2 := by
  norm_num [resBase, initX, exInit2, exU1, Fin.sum_univ_succ, Fin.sum_univ_zero,
    Fin.succ_zero_eq_one, abs_of_nonneg, abs_of_nonpos]

/-- The code's measure after iteration 1 on the second data set is `4/3`. -/
theorem ex2Res1 : resBase exU1 exU2 = 4/3 := by
  norm_num [resBase, exU1, exU2, Fin.sum_univ_succ, Fin.sum_univ_zero,
    Fin.succ_zero_eq_one, abs_of_nonneg, abs_of_nonpos]

/-- With `min_diff = 3/2` the second data set runs exactly two iterations of
the loop: the measure `2` does not break, the measure `4/3` does. -/
theorem ex2Run :
    baseLoop (AtAOf exA) (AtBOf exA exB2) (3/2) 5 0 (initX exInit2)
      = (exU2, 2) := by
  have h0 : ¬ resBase (initX exInit2)
      (baseIter (AtAOf exA) (AtBOf exA exB2) 0 (initX exInit2)) < (3/2 : ℚ) := by
    rw [ex2Step0, ex2Res0]
    norm_num
  have h1 : resBase exU1 (baseIter (AtAOf exA) (AtBOf exA exB2) 1 exU1)
      < (3/2 : ℚ) := by
    rw [ex2Step1, ex2Res1]
    norm_num
  have e1 : baseLoop (AtAOf exA) (AtBOf exA exB2) (3/2) (3+1) 1 exU1
      = (exU2, 1) := by
    rw [baseLoop_step_break (AtAOf exA) (AtBOf exA exB2) (3/2) 3 1 exU1 h1,
      ex2Step1]
  show baseLoop (AtAOf exA) (AtBOf exA exB2) (3/2) (4+1) 0 (initX exInit2)
      = (exU2, 2)
  rw [baseLoop_step_no_break (AtAOf exA) (AtBOf exA exB2) (3/2) 4 0
    (initX exInit2) h0, ex2Step0, e1]

/-- Post-projection fixes `(1/3, 2/3)`: entries already in `[0,1]` and the
column 1-norm is `1`. -/
theorem exPostT2 : postProject exT2 = exT2 := by
  funext i j
  fin_cases j
  fin_cases i <;>
    norm_num [postProject, clamp01, exT2, Fin.sum_univ_succ, Fin.sum_univ_zero,
      Fin.succ_zero_eq_one, abs_of_nonneg]

/-- A 1×1 all-zero matrix used for the degenerate-column analysis. -/
def exZ : Mt 1 1 := fun _ _ => 0

/-- A 3×1 dictionary matrix for the dimension-mismatch scenario. -/
def exA3 : Mt 3 1 := fun _ _ => 0

/-- A 4×1 target matrix for the dimension-mismatch scenario. -/
def exB4 : Mt 4 1 := fun _ _ => 0

/-- An initializer row choice for the dimension-mismatch scenario. -/
def exInitC8 : Fin 1 → Fin 1 := fun _ => 0

/-- A gradient column whose entries are both in `(0, 1)`: the source's
`int`-typed running minimum makes the selection insensitive to them. -/
def exG : Vc 2 := fun i => if i = 0 then 1/2 else 3/10

/-- An iterate column with both entries strictly positive. -/
def exXc : Vc 2 := fun _ => 1/2

/-!
Claim theorems.
-/

/-- Claim C1: for every conforming input (`A.rows = B.rows`, all dimensions at
least one, carried by the types) and every `max_iterations ≥ 0`, the matrix
returned by the solver is `A.cols × B.cols` (by the result type), every entry
lies in `[0, 1]`, and every column sums to exactly 1 (hence within `1e-9`).
This holds for both `run_simplex_regression_FW_base` and
`run_simplex_regression_FW`, for every choice of initializer rows. -/
theorem claim_C1_feasibility {m k n : ℕ} (A : Mt (m+1) (k+1))
    (B : Mt (m+1) (n+1)) (initIdx : Fin (n+1) → Fin (k+1)) (max_iter : ℤ)
    (min_diff : ℚ) (hmi : 0 ≤ max_iter) :
    (∀ i j, 0 ≤ (run_simplex_regression_FW_base A B initIdx max_iter min_diff).1 i j ∧
      (run_simplex_regression_FW_base A B initIdx max_iter min_diff).1 i j ≤ 1) ∧
    (∀ j, ∑ i, (run_simplex_regression_FW_base A B initIdx max_iter min_diff).1 i j = 1) ∧
    (∀ i j, 0 ≤ (run_simplex_regression_FW A B initIdx max_iter min_diff).1 i j ∧
      (run_simplex_regression_FW A B initIdx max_iter min_diff).1 i j ≤ 1) ∧
    (∀ j, ∑ i, (run_simplex_regression_FW A B initIdx max_iter min_diff).1 i j = 1) := by
  have hbase : ∀ j, ∑ i, (baseLoop (AtAOf A) (AtBOf A B) min_diff
      (effIter k max_iter) 0 (initX initIdx)).1 i j = 1 :=
    baseLoop_colsum (AtAOf A) (AtBOf A B) min_diff (effIter k max_iter) 0
      (initX initIdx) (fun j => initX_colsum initIdx j)
  have hfw : (run_simplex_regression_FW A B initIdx max_iter min_diff).1
      = postProject (initX initIdx) := by
    simp only [run_simplex_regression_FW]
    rw [fwLoop_fst]
  refine ⟨?_, ?_, ?_, ?_⟩
  · intro i j
    exact postProject_entry_mem _ i j (hbase j)
  · intro j
    exact postProject_colsum _ j (hbase j)
  · intro i j
    rw [hfw]
    exact postProject_entry_mem _ i j (initX_colsum initIdx j)
  · intro j
    rw [hfw]
    exact postProject_colsum _ j (initX_colsum initIdx j)

/-- Witness for C1 at the first concrete data set with `max_iter = 5`. -/
theorem claim_C1_feasibility_witness :
    (0 : ℤ) ≤ 5 ∧
    ((∀ i j, 0 ≤ (run_simplex_regression_FW_base exA exB exInit 5 0).1 i j ∧
      (run_simplex_regression_FW_base exA exB exInit 5 0).1 i j ≤ 1) ∧
    (∀ j, ∑ i, (run_simplex_regression_FW_base exA exB exInit 5 0).1 i j = 1) ∧
    (∀ i j, 0 ≤ (run_simplex_regression_FW exA exB exInit 5 0).1 i j ∧
      (run_simplex_regression_FW exA exB exInit 5 0).1 i j ≤ 1) ∧
    (∀ j, ∑ i, (run_simplex_regression_FW exA exB exInit 5 0).1 i j = 1)) :=
  ⟨by decide, claim_C1_feasibility exA exB exInit 5 0 (by decide)⟩

/-- Claim C2 (code bug): in `run_simplex_regression_FW` the write-back
`X.col(k) = x + alpha*d` is commented out (source line 418), so although the
direction and step are computed, the iterate never moves: after 5 iterations
the returned matrix is still the (post-projection-invariant) initializer,
while the computed update of iteration 0 is a genuinely different column (the
base variant applies it, reaching `(1, 0)` from `(0, 1)`). -/
theorem claim_C2_update_discarded :
    (run_simplex_regression_FW exA exB exInit 5 0).1 = initX exInit ∧
    (run_simplex_regression_FW exA exB exInit 5 0).2 = 5 ∧
    baseIter (AtAOf exA) (AtBOf exA exB) 0 (initX exInit) ≠ initX exInit := by
  refine ⟨?_, ?_, ?_⟩
  · simp only [run_simplex_regression_FW]
    rw [fwLoop_fst, postProject_initX]
  · simp only [run_simplex_regression_FW]
    rw [fwLoop_snd]
    decide
  · rw [exStep0]
    intro h
    have h00 := congrFun (congrFun h 0) 0
    norm_num [exT1, initX, exInit] at h00

/-- Claim C3 (code bug): the index-selection loop stores the running minima in
`int` variables, so with the gradient `g = (1/2, 3/10)` and the strictly
positive iterate `x = (1/2, 1/2)` it returns `i1 = i2 = 0` even though the
true minimum of `g` (over all rows, and over the support) is at row 1:
after row 0 the stored minimum is `trunc(1/2) = 0` and `3/10 < 0` fails. -/
theorem claim_C3_truncated_argmin :
    selectIdx exG exXc = (0, 0) ∧ exG 1 < exG 0 ∧ 0 < exXc 1 := by
  refine ⟨?_, by norm_num [exG], by norm_num [exXc]⟩
  norm_num [selectIdx, exG, exXc, ratTrunc,
    show List.finRange 2 = [0, 1] from by decide, List.foldl]

/-- Claim C4 (code bug): at iteration 4 of the first data set the column is
`(1/10, 9/10)` and the away direction with `i2 = 0` is selected.  The claimed
step `min(x(i2)/(1 - x(i2)), 2/(it+2)) = min(1/9, 1/3) = 1/9` would land the
drained coordinate exactly at `0`, but the base variant ignores its computed
`alpha_max` (and computes it from `i1`, not `i2`) and applies `2/(it+2) = 1/3`
outright, driving the drained coordinate to `-1/5 < 0`. -/
theorem claim_C4_away_step_unbounded :
    selectIdx (fun i => (∑ l, AtAOf exA i l * exT4 l 0) - AtBOf exA exB i 0)
      (fun l => exT4 l 0) = (0, 0) ∧
    baseIter (AtAOf exA) (AtBOf exA exB) 4 exT4 0 0 = -(1/5) ∧
    min (exT4 0 0 / (1 - exT4 0 0)) (2 / (4 + 2 : ℚ)) = 1/9 ∧
    exT4 0 0 + (1/9 : ℚ) * (exT4 0 0 - 1) = 0 ∧ (-(1/5) : ℚ) < 0 := by
  refine ⟨?_, ?_, by norm_num [exT4, min_def], by norm_num [exT4], by norm_num⟩
  · norm_num [selectIdx, dotp, ratTrunc, AtAOf, AtBOf, exA, exB, exT4,
      Fin.sum_univ_succ, Fin.sum_univ_zero, Fin.succ_zero_eq_one,
      show List.finRange 2 = [0, 1] from by decide, List.foldl]
  · rw [exStep4]
    norm_num [exT5]

/-- Claim C5 counterexample: at the iteration boundary after 5 iterations of
the solve loop on the first data set, entry 0 of the column is `-1/5`, which
is negative, so the column is not a simplex point at that boundary. -/
theorem claim_C5_counterexample :
    (baseLoop (AtAOf exA) (AtBOf exA exB) 0 5 0 (initX exInit)).1 0 0 = -(1/5) ∧
    (baseLoop (AtAOf exA) (AtBOf exA exB) 0 5 0 (initX exInit)).1 0 0 < 0 := by
  constructor <;> rw [exRun5] <;> norm_num [exT5]

/-- Claim C5 as amended: at every outer-iteration boundary every column of `X`
still sums to exactly 1 (both candidate directions have zero entry sum), but
entries need not be non-negative — exact simplex membership only holds after
the final post-projection. -/
theorem claim_C5_amended {k n : ℕ} (AtA : Mt (k+1) (k+1)) (AtB : Mt (k+1) (n+1))
    (minDiff : ℚ) (fuel it : ℕ) (X : Mt (k+1) (n+1))
    (hX : ∀ j, ∑ i, X i j = 1) :
    ∀ j, ∑ i, (baseLoop AtA AtB minDiff fuel it X).1 i j = 1 :=
  baseLoop_colsum AtA AtB minDiff fuel it X hX

/-- Witness for the amended C5 on the first data set. -/
theorem claim_C5_amended_witness :
    (∀ j, ∑ i, initX exInit i j = 1) ∧
    (∀ j, ∑ i, (baseLoop (AtAOf exA) (AtBOf exA exB) 0 5 0 (initX exInit)).1 i j = 1) :=
  ⟨fun j => initX_colsum exInit j,
   claim_C5_amended (AtAOf exA) (AtBOf exA exB) 0 5 0 (initX exInit)
     (fun j => initX_colsum exInit j)⟩

/-- Claim C6 counterexample: on the second data set with `min_diff = 3/2`, the
mean absolute difference after the first iteration is `2/2 = 1 < 3/2`, so
under the claim the solver would stop after 1 iteration; the code compares the
total absolute difference divided by the column count (`2/1 = 2 ≥ 3/2`) and
therefore runs a second iteration. -/
theorem claim_C6_counterexample :
    (run_simplex_regression_FW_base exA exB2 exInit2 5 (3/2)).2 = 2 ∧
    (∑ i, ∑ j, |initX exInit2 i j -
      baseIter (AtAOf exA) (AtBOf exA exB2) 0 (initX exInit2) i j|) / 2
      < 3/2 := by
  constructor
  · simp only [run_simplex_regression_FW_base,
      show effIter 1 5 = 5 from by decide]
    rw [ex2Run]
  · rw [ex2Step0]
    norm_num [initX, exInit2, exU1, Fin.sum_univ_succ, Fin.sum_univ_zero,
      Fin.succ_zero_eq_one, abs_of_nonneg, abs_of_nonpos]

/-- Claim C6 as amended: `run_simplex_regression_FW_base` terminates the loop
right after any iteration whose measure `sum(sum(abs(old_X - X)))/n_cols`
falls below `min_diff` (so fewer than `max_iter` iterations run whenever that
happens early), while in `run_simplex_regression_FW` the termination check is
commented out and the loop always executes the full iteration budget. -/
theorem claim_C6_amended {k n : ℕ} (AtA : Mt (k+1) (k+1)) (AtB : Mt (k+1) (n+1))
    (minDiff : ℚ) (fuel it : ℕ) (X : Mt (k+1) (n+1))
    (h : resBase X (baseIter AtA AtB it X) < minDiff) :
    (baseLoop AtA AtB minDiff (fuel+1) it X).2 = 1 ∧
    ∀ {m : ℕ} (A : Mt (m+1) (k+1)) (B : Mt (m+1) (n+1))
      (initIdx : Fin (n+1) → Fin (k+1)) (mi : ℤ) (md : ℚ),
      (run_simplex_regression_FW A B initIdx mi md).2 = effIter k mi := by
  constructor
  · rw [baseLoop_step_break AtA AtB minDiff fuel it X h]
  · intro m A B initIdx mi md
    simp only [run_simplex_regression_FW]
    rw [fwLoop_snd]

/-- Witness for the amended C6: with `min_diff = 10` the first data set breaks
after one iteration. -/
theorem claim_C6_amended_witness :
    resBase (initX exInit) (baseIter (AtAOf exA) (AtBOf exA exB) 0 (initX exInit)) < 10 ∧
    ((baseLoop (AtAOf exA) (AtBOf exA exB) 10 (0+1) 0 (initX exInit)).2 = 1 ∧
     ∀ {m : ℕ} (A : Mt (m+1) 2) (B : Mt (m+1) 1) (initIdx : Fin 1 → Fin 2)
       (mi : ℤ) (md : ℚ),
       (run_simplex_regression_FW A B initIdx mi md).2 = effIter 1 mi) := by
  have h : resBase (initX exInit)
      (baseIter (AtAOf exA) (AtBOf exA exB) 0 (initX exInit)) < 10 := by
    rw [exStep0]
    norm_num [resBase, initX, exInit, exT1, Fin.sum_univ_succ,
      Fin.sum_univ_zero, Fin.succ_zero_eq_one, abs_of_nonneg, abs_of_nonpos]
  exact ⟨h, claim_C6_amended (AtAOf exA) (AtBOf exA exB) 10 0 0 (initX exInit) h⟩

/-- Claim C7 counterexample: with `max_iterations = 0` the base solver runs
zero iterations and returns the post-projected initializer (entry 0 is `0`),
whereas with `max_iterations = k = 2` it runs two iterations and returns a
different matrix (entry 0 is `1/3`): `max_iterations = 0` is not treated as
"use `k`". -/
theorem claim_C7_counterexample :
    (run_simplex_regression_FW_base exA exB exInit 0 0).2 = 0 ∧
    (run_simplex_regression_FW_base exA exB exInit 0 0).1 0 0 = 0 ∧
    (run_simplex_regression_FW_base exA exB exInit 2 0).2 = 2 ∧
    (run_simplex_regression_FW_base exA exB exInit 2 0).1 0 0 = 1/3 := by
  refine ⟨?_, ?_, ?_, ?_⟩
  · simp only [run_simplex_regression_FW_base,
      show effIter 1 0 = 0 from by decide, baseLoop]
  · simp only [run_simplex_regression_FW_base,
      show effIter 1 0 = 0 from by decide, baseLoop]
    rw [postProject_initX]
    norm_num [initX, exInit, show (0 : Fin 2) ≠ 1 from by decide]
  · simp only [run_simplex_regression_FW_base,
      show effIter 1 2 = 2 from by decide]
    rw [exRun2]
  · simp only [run_simplex_regression_FW_base,
      show effIter 1 2 = 2 from by decide]
    rw [exRun2]
    show postProject exT2 0 0 = 1/3
    rw [exPostT2]
    norm_num [exT2]

/-- Claim C7 as amended: only the exact value `-1` is interpreted as "use `k`
(the basis size)"; every other `max_iterations ≤ 0` yields zero iterations and
the post-projected initializer. -/
theorem claim_C7_amended {m k n : ℕ} (A : Mt (m+1) (k+1)) (B : Mt (m+1) (n+1))
    (initIdx : Fin (n+1) → Fin (k+1)) (min_diff : ℚ) (max_iter : ℤ)
    (h1 : max_iter ≤ 0) (h2 : max_iter ≠ -1) :
    run_simplex_regression_FW_base A B initIdx max_iter min_diff
      = (postProject (initX initIdx), 0) ∧
    run_simplex_regression_FW_base A B initIdx (-1) min_diff
      = run_simplex_regression_FW_base A B initIdx ((k : ℤ) + 1) min_diff := by
  constructor
  · have he : effIter k max_iter = 0 := by
      simp only [effIter, if_neg h2]
      exact Int.toNat_of_nonpos h1
    simp only [run_simplex_regression_FW_base, he, baseLoop]
  · have hne : ((k : ℤ) + 1) ≠ -1 := by omega
    have he : effIter k (-1) = effIter k ((k : ℤ) + 1) := by
      unfold effIter
      rw [if_pos rfl, if_neg hne]
    simp only [run_simplex_regression_FW_base, he]

/-- Witness for the amended C7 at `max_iterations = 0`. -/
theorem claim_C7_amended_witness :
    ((0:ℤ) ≤ 0 ∧ (0:ℤ) ≠ -1) ∧
    (run_simplex_regression_FW_base exA exB exInit 0 0
      = (postProject (initX exInit), 0) ∧
     run_simplex_regression_FW_base exA exB exInit (-1) 0
      = run_simplex_regression_FW_base exA exB exInit (((1:ℕ) : ℤ) + 1) 0) :=
  ⟨⟨by decide, by decide⟩, claim_C7_amended exA exB exInit 0 0 (by decide) (by decide)⟩

/-- Claim C8: when `A.rows ≠ B.rows` the very first operation (`cor(A, B)`)
fails with the dimension-mismatch condition, so the caller receives the error
and never a partially computed matrix, and no iteration executes. -/
theorem claim_C8_dimension_mismatch {ma mb k n : ℕ} (A : Mt (ma+1) (k+1))
    (B : Mt (mb+1) (n+1)) (initIdx : Fin (n+1) → Fin (k+1)) (max_iter : ℤ)
    (min_diff : ℚ) (h : ma + 1 ≠ mb + 1) :
    run_simplex_regression_FW_base_checked A B initIdx max_iter min_diff
      = Except.error SolverError.DimensionMismatch := by
  simp only [run_simplex_regression_FW_base_checked]
  rw [dif_neg h]

/-- Witness for C8: `A` with 3 rows, `B` with 4 rows. -/
theorem claim_C8_dimension_mismatch_witness :
    (2 + 1 ≠ 3 + 1) ∧
    run_simplex_regression_FW_base_checked exA3 exB4 exInitC8 7 (1/1000)
      = Except.error SolverError.DimensionMismatch :=
  ⟨by decide, claim_C8_dimension_mismatch exA3 exB4 exInitC8 7 (1/1000) (by decide)⟩

/-- Claim C9 counterexample: a column whose clamped sum is zero at
post-projection time is returned unchanged as the zero column — summing to
`0`, not `1` — and no error of any kind is raised: the solver has no
`DegenerateInput` condition. -/
theorem claim_C9_counterexample :
    (∑ i, clamp01 (exZ i 0)) = 0 ∧
    postProject exZ 0 0 = 0 ∧
    (∑ i, postProject exZ i 0) = 0 := by
  refine ⟨?_, ?_, ?_⟩ <;>
    norm_num [postProject, clamp01, exZ, Fin.sum_univ_succ, Fin.sum_univ_zero]

/-- Claim C9 as amended: when a column's clamped 1-norm is zero the final
normalisation divides by `1` and returns the clamped column unchanged (no
division by zero, but no error either); the case cannot arise in the solver,
because every column reaching post-projection sums to exactly 1 and its
renormalisation then sums to 1. -/
theorem claim_C9_amended {k n : ℕ} (X : Mt (k+1) (n+1)) (j : Fin (n+1)) :
    ((∑ l, |clamp01 (X l j)|) = 0 → ∀ i, postProject X i j = clamp01 (X i j)) ∧
    ((∑ i, X i j = 1) → ∑ i, postProject X i j = 1) := by
  constructor
  · intro h i
    simp only [postProject, if_pos h, div_one]
  · intro h
    exact postProject_colsum X j h

/-- Witness for the amended C9: the zero column and a one-hot column. -/
theorem claim_C9_amended_witness :
    (∀ i, postProject exZ i 0 = clamp01 (exZ i 0)) ∧
    (∑ i, postProject (initX exInit) i 0 = 1) :=
  ⟨(claim_C9_amended exZ 0).1
     (by norm_num [clamp01, exZ, Fin.sum_univ_succ, Fin.sum_univ_zero]),
   (claim_C9_amended (initX exInit) 0).2 (initX_colsum exInit 0)⟩

/-- Claim C10: for every input and every choice of `max_iter` and `min_diff`,
`run_simplex_regression_FW` returns the clamp-and-column-normalised one-hot
initializer: the iteration loop never writes to `X`, so the output does not
depend on the iteration parameters at all. -/
theorem claim_C10_loop_inert {m k n : ℕ} (A : Mt (m+1) (k+1))
    (B : Mt (m+1) (n+1)) (initIdx : Fin (n+1) → Fin (k+1)) (mi1 mi2 : ℤ)
    (md1 md2 : ℚ) :
    (run_simplex_regression_FW A B initIdx mi1 md1).1
      = postProject (initX initIdx) ∧
    (run_simplex_regression_FW A B initIdx mi1 md1).1
      = (run_simplex_regression_FW A B initIdx mi2 md2).1 := by
  have h : ∀ (mi : ℤ) (md : ℚ),
      (run_simplex_regression_FW A B initIdx mi md).1
        = postProject (initX initIdx) := by
    intro mi md
    simp only [run_simplex_regression_FW]
    rw [fwLoop_fst]
  exact ⟨h mi1 md1, (h mi1 md1).trans (h mi2 md2).symm⟩

end ACTIONet
